import Mathlib

/-!
Verification of `pkg/pmapi/tlsreport.go` (TLS public-key-pinning mismatch
reporter): a shallow embedding of the data model and operations, followed by
theorems about them.

Modelling conventions:
* Go strings and `[]string` become `String` and `List String`.
* Go `int` (64-bit on the platforms the bridge ships on) becomes `Int`,
  with explicit clamping where the standard library clamps.
* `time.Now()` is nondeterministic, so the construction time is an explicit
  parameter `now : Nat` (seconds since the Unix epoch; `time.Now()` is
  always after the epoch).
* The side effects of `postCertIssueReport` (logging, the transport call,
  draining/closing the response body) are recorded in an explicit trace
  value, and the outcomes of the external standard-library calls
  (`json.Marshal`, `http.NewRequest`, `Client.Do`) are supplied by an
  oracle environment, so every control-flow path of the Go function is
  represented.
-/

namespace Pmapi

/-- `TLSReport` from tlsreport.go: the RFC 7469-inspired pin-validation
failure report.  Field order is the Go struct declaration order, which is
also the order `encoding/json` marshals the fields in. -/
structure TLSReport where
  /-- json tag `date-time`: date-time of observed pin validation, RFC 3339. -/
  DateTime : String
  /-- json tag `hostname`. -/
  Hostname : String
  /-- json tag `port`. -/
  Port : Int
  /-- json tag `effective-expiration-date`, RFC 3339. -/
  EffectiveExpirationDate : String
  /-- json tag `include-subdomains`. -/
  IncludeSubdomains : Bool
  /-- json tag `noted-hostname`. -/
  NotedHostname : String
  /-- json tag `served-certificate-chain`. -/
  ServedCertificateChain : List String
  /-- json tag `validated-certificate-chain`. -/
  ValidatedCertificateChain : List String
  /-- json tag `known-pins`. -/
  KnownPins : List String
  /-- json tag `app-version`. -/
  AppVersion : String
deriving Repr, DecidableEq

/-- `TLSReportURI` from tlsreport.go: the fixed address TLS reports are sent to. -/
def TLSReportURI : String := "https://reports.protonmail.ch/reports/tls"

/-- `TrustedAPIPins` from tlsreport.go: trusted public-key pins of the API
and its proxies (process-wide, read-only). -/
def TrustedAPIPins : List String :=
  [ "pin-sha256=\"drtmcR2kFkM8qJClsuWgUzxgBkePfRCkRpqUesyDmeE=\""
  , "pin-sha256=\"YRGlaY0jyJ4Jw2/4M8FIftwbDIQfh8Sdro96CeEel54=\""
  , "pin-sha256=\"AfMENBVvOS8MnISprtvyPsjKlPooqh8nMB/pvCrpJpw=\""
  , "pin-sha256=\"EU6TS9MO0L/GsDHvVc9D5fChYLNy5JdGYpJw0ccgetM=\""
  , "pin-sha256=\"iKPIHPnDNqdkvOnTClQ8zQAIKG0XavaPkcEo0LBAABA=\""
  , "pin-sha256=\"MSlVrBCdL0hKyczvgYVSRNm88RicyY04Q2y5qrBt0xA=\""
  , "pin-sha256=\"C2UxW0T1Ckl9s+8cXfjXxlEqwAfPM4HiW2y3UdtBeCw=\"" ]

/-! ### Model of `strconv.Atoi`

Go's `strconv.Atoi(s)` is `ParseInt(s, 10, 0)`: an optional `+`/`-` sign
followed by one or more decimal digits.  On a syntax error it returns
`(0, ErrSyntax)`; on a syntactically valid numeral outside the signed
64-bit range it returns the clamped extreme value together with
`ErrRange` (per the `strconv` documentation, the returned value on a
range error is the maximum-magnitude integer of the appropriate sign).
`NewTLSReport` discards the error, keeping only the value. -/

/-- Value of a nonempty all-digit character list, base 10. -/
def digitsVal (cs : List Char) : Nat :=
  cs.foldl (fun a c => a * 10 + (c.toNat - 48)) 0

/-- The decimal-integer syntax accepted by `strconv.ParseInt(s, 10, _)`:
an optional sign then one or more digits.  `none` means a syntax error. -/
def atoiNum (s : String) : Option Int :=
  match s.data with
  | [] => none
  | c :: rest =>
    let neg : Bool := c = '-'
    let ds : List Char := if c = '-' || c = '+' then rest else c :: rest
    if ds ≠ [] ∧ ds.all Char.isDigit then
      some (if neg then -(digitsVal ds : Int) else (digitsVal ds : Int))
    else none

/-- Largest signed 64-bit integer. -/
def maxInt64 : Int := 9223372036854775807

/-- Smallest signed 64-bit integer. -/
def minInt64 : Int := -9223372036854775808

/-- `strconv.Atoi` on a 64-bit platform: returns the converted value and
whether the conversion succeeded without error (`err == nil`).  Syntax
errors yield `(0, false)`; range overflow yields the clamped extreme value
and `false`. -/
def Atoi (s : String) : Int × Bool :=
  match atoiNum s with
  | none => (0, false)
  | some v =>
    if v < minInt64 then (minInt64, false)
    else if maxInt64 < v then (maxInt64, false)
    else (v, true)

/-! ### Model of `time.Format(time.RFC3339)`

The construction time is `now : Nat`, seconds since the Unix epoch (UTC).
The formatter below is the standard civil-from-days calendar algorithm,
producing the fixed-width `YYYY-MM-DDTHH:MM:SSZ` rendering that
`time.RFC3339` produces for a UTC time. -/

/-- Left-pad the decimal rendering of `n` with zeros to width `w`. -/
def padNum (w n : Nat) : String :=
  let s := toString n
  String.mk (List.replicate (w - s.length) '0') ++ s

/-- Gregorian (year, month, day) of day number `z0` counted from
1970-01-01 (Howard Hinnant's civil-from-days algorithm, specialized to
nonnegative day numbers). -/
def civilFromDays (z0 : Nat) : Nat × Nat × Nat :=
  let z := z0 + 719468
  let era := z / 146097
  let doe := z % 146097
  let yoe := (doe - doe / 1460 + doe / 36524 - doe / 146096) / 365
  let y := yoe + era * 400
  let doy := doe - (365 * yoe + yoe / 4 - yoe / 100)
  let mp := (5 * doy + 2) / 153
  let d := doy - (153 * mp + 2) / 5 + 1
  let m := if mp < 10 then mp + 3 else mp - 9
  (if m ≤ 2 then y + 1 else y, m, d)

/-- RFC 3339 rendering of `t` seconds after the Unix epoch, at UTC. -/
def formatRFC3339 (t : Nat) : String :=
  let ymd := civilFromDays (t / 86400)
  let rem := t % 86400
  padNum 4 ymd.1 ++ "-" ++ padNum 2 ymd.2.1 ++ "-" ++ padNum 2 ymd.2.2 ++ "T" ++
    padNum 2 (rem / 3600) ++ ":" ++ padNum 2 (rem % 3600 / 60) ++ ":" ++
    padNum 2 (rem % 60) ++ "Z"

/-- `NewTLSReport` from tlsreport.go.  `now` is the value of `time.Now()`
at the call, in epoch seconds.  The Go composite literal assigns every
field except `DateTime`, which therefore keeps the Go zero value `""`;
the port is `strconv.Atoi(port)` with the error discarded; the expiration
date is `time.Now().Add(365 * 24 * 60 * 60 * time.Second)` in RFC 3339
format. -/
def NewTLSReport (now : Nat) (host port server : String)
    (certChain knownPins : List String) (appVersion : String) : TLSReport :=
  let intPort := (Atoi port).1
  { DateTime := ""
    Hostname := host
    Port := intPort
    EffectiveExpirationDate := formatRFC3339 (now + 365 * 24 * 60 * 60)
    IncludeSubdomains := false
    NotedHostname := server
    ValidatedCertificateChain := []
    ServedCertificateChain := certChain
    KnownPins := knownPins
    AppVersion := appVersion }

/-! ### Model of the JSON wire payload

`postCertIssueReport` serializes the report with `json.Marshal`.  The
payload is modelled at the JSON-value level: `encodeTLSReport` is the
object `encoding/json` produces for a `TLSReport` (fields in struct
declaration order, the tag names from the struct), and `decodeTLSReport`
is `json.Unmarshal` into a fresh `TLSReport`: each present key fills the
matching field, a missing key leaves the field's zero value, a
present-but-wrongly-typed value is rejected, anything but an object is
rejected. -/

/-- JSON values, at the granularity the TLSReport payload needs
(its numbers are Go `int`s). -/
inductive Json where
  | str (s : String)
  | int (n : Int)
  | bool (b : Bool)
  | arr (xs : List Json)
  | obj (fields : List (String × Json))
deriving Repr

/-- The JSON object `json.Marshal` produces for a `TLSReport`. -/
def encodeTLSReport (r : TLSReport) : Json :=
  .obj
    [ ("date-time", .str r.DateTime)
    , ("hostname", .str r.Hostname)
    , ("port", .int r.Port)
    , ("effective-expiration-date", .str r.EffectiveExpirationDate)
    , ("include-subdomains", .bool r.IncludeSubdomains)
    , ("noted-hostname", .str r.NotedHostname)
    , ("served-certificate-chain", .arr (r.ServedCertificateChain.map .str))
    , ("validated-certificate-chain", .arr (r.ValidatedCertificateChain.map .str))
    , ("known-pins", .arr (r.KnownPins.map .str))
    , ("app-version", .str r.AppVersion) ]

/-- The key list of a JSON object (empty for non-objects). -/
def jsonKeys : Json → List String
  | .obj fs => fs.map (fun p => p.1)
  | _ => []

/-- A JSON array of strings, read back as the list of strings. -/
def strListOfJson : List Json → Option (List String)
  | [] => some []
  | .str s :: rest => (strListOfJson rest).map (fun l => s :: l)
  | _ => none

/-- Unmarshal a string field: missing keys leave the zero value `""`. -/
def fieldStr (fs : List (String × Json)) (k : String) : Option String :=
  match fs.lookup k with
  | none => some ""
  | some (.str s) => some s
  | some _ => none

/-- Unmarshal an int field: missing keys leave the zero value `0`. -/
def fieldInt (fs : List (String × Json)) (k : String) : Option Int :=
  match fs.lookup k with
  | none => some 0
  | some (.int n) => some n
  | some _ => none

/-- Unmarshal a bool field: missing keys leave the zero value `false`. -/
def fieldBool (fs : List (String × Json)) (k : String) : Option Bool :=
  match fs.lookup k with
  | none => some false
  | some (.bool b) => some b
  | some _ => none

/-- Unmarshal a `[]string` field: missing keys leave the zero value (nil,
modelled as `[]`). -/
def fieldStrList (fs : List (String × Json)) (k : String) : Option (List String) :=
  match fs.lookup k with
  | none => some []
  | some (.arr xs) => strListOfJson xs
  | some _ => none

/-- `json.Unmarshal` of a JSON value into a fresh `TLSReport`. -/
def decodeTLSReport : Json → Option TLSReport
  | .obj fs => do
    let dt ← fieldStr fs "date-time"
    let hn ← fieldStr fs "hostname"
    let pt ← fieldInt fs "port"
    let eed ← fieldStr fs "effective-expiration-date"
    let isd ← fieldBool fs "include-subdomains"
    let nh ← fieldStr fs "noted-hostname"
    let scc ← fieldStrList fs "served-certificate-chain"
    let vcc ← fieldStrList fs "validated-certificate-chain"
    let kp ← fieldStrList fs "known-pins"
    let av ← fieldStr fs "app-version"
    pure ⟨dt, hn, pt, eed, isd, nh, scc, vcc, kp, av⟩
  | _ => none

/-! ### Model of `postCertIssueReport`

The Go function returns nothing; its observable behaviour is the log
records it emits, the HTTP request it hands to the transport, and whether
it drains and closes the response body.  All of that is collected in a
`SubmitTrace`.  The outcomes of the three fallible standard-library calls
are oracle inputs (`HttpEnv`), so each of the function's control-flow
paths is covered; `json.Marshal` in fact cannot fail for this field
types, but the code handles the branch and the spec specifies it. -/

/-- Modelled from the spec: the pmapi package-level API version constant
sent in the `x-pm-apiversion` header (the spec: "an API-version header
with a fixed integer value").  Its defining file is not part of the
visible source; nothing below depends on the concrete value, only on it
being a fixed integer. -/
def Version : Int := 3

/-- `strconv.Itoa`: decimal rendering of an integer. -/
def Itoa (n : Int) : String := toString n

/-- An HTTP request, at the granularity tlsreport.go manipulates it. -/
structure Request where
  Method : String
  URL : String
  Headers : List (String × String)
  Body : String
deriving Repr, DecidableEq

/-- `Header.Add`: appends the pair (all keys in tlsreport.go are distinct,
so the Go key-canonicalization and the value-list structure are
unobservable and elided). -/
def headerAdd (hs : List (String × String)) (k v : String) : List (String × String) :=
  hs ++ [(k, v)]

/-- `Header.Set`: replaces any existing entries for the key. -/
def headerSet (hs : List (String × String)) (k v : String) : List (String × String) :=
  hs.filter (fun p => !(p.1 == k)) ++ [(k, v)]

/-- An HTTP response, at the granularity tlsreport.go inspects it. -/
structure HttpResponse where
  StatusCode : Int
deriving Repr, DecidableEq

/-- `http.StatusOK`. -/
def StatusOK : Int := 200

/-- logrus levels used by tlsreport.go. -/
inductive LogLevel where
  | warn
  | error
deriving Repr, DecidableEq

/-- A logrus field value, at the granularity tlsreport.go attaches them. -/
inductive FieldValue where
  | int (n : Int)
  | errVal (e : String)
  | reqVal (r : Request)
  | resVal (r : HttpResponse)
deriving Repr, DecidableEq

/-- One logrus record: level, `WithField`/`WithError` fields, message. -/
structure LogEntry where
  level : LogLevel
  fields : List (String × FieldValue)
  msg : String
deriving Repr, DecidableEq

/-- Outcome of `json.Marshal(report)`. -/
inductive MarshalResult where
  | ok (data : String)
  | err (e : String)
deriving Repr, DecidableEq

/-- Outcome of `http.NewRequest`. -/
inductive NewRequestResult where
  | ok
  | err (e : String)
deriving Repr, DecidableEq

/-- Outcome of `(&http.Client{}).Do(req)`. -/
inductive DoResult where
  | ok (res : HttpResponse)
  | err (e : String)
deriving Repr, DecidableEq

/-- Oracle outcomes of the external calls made by one
`postCertIssueReport` invocation. -/
structure HttpEnv where
  marshal : MarshalResult
  newRequest : NewRequestResult
  doRequest : DoResult
deriving Repr, DecidableEq

/-- The observable behaviour of one `postCertIssueReport` invocation:
the emitted log records, the request handed to `Client.Do` (if reached),
and whether the response body was drained (`ioutil.ReadAll`) and closed. -/
structure SubmitTrace where
  logs : List LogEntry
  sent : Option Request
  bodyRead : Bool
  bodyClosed : Bool
deriving Repr, DecidableEq

/-- `postCertIssueReport` from tlsreport.go, as a function from the oracle
environment to its observable trace.  The function's Go return type is
empty: every path falls through to a plain `return`, so the model is
total and has no error output. -/
def postCertIssueReport (env : HttpEnv) (report : TLSReport) (userAgent : String) :
    SubmitTrace :=
  match env.marshal with
  | .err e =>
    { logs := [⟨.error, [("error", .errVal e)], "Failed to marshal TLS report"⟩]
      sent := none, bodyRead := false, bodyClosed := false }
  | .ok b =>
    match env.newRequest with
    | .err e =>
      { logs := [⟨.error, [("error", .errVal e)], "Failed to create http request"⟩]
        sent := none, bodyRead := false, bodyClosed := false }
    | .ok =>
      let req0 : Request := { Method := "POST", URL := TLSReportURI, Headers := [], Body := b }
      let hs := headerAdd req0.Headers "Content-Type" "application/json"
      let hs := headerSet hs "User-Agent" userAgent
      let hs := headerSet hs "x-pm-apiversion" (Itoa Version)
      let hs := headerSet hs "x-pm-appversion" report.AppVersion
      let req : Request := { req0 with Headers := hs }
      let warnEntry : LogEntry := ⟨.warn, [("request", .reqVal req)], "Reporting TLS mismatch"⟩
      match env.doRequest with
      | .err e =>
        { logs := [warnEntry, ⟨.error, [("error", .errVal e)], "Failed to report TLS mismatch"⟩]
          sent := some req, bodyRead := false, bodyClosed := false }
      | .ok res =>
        { logs :=
            [warnEntry, ⟨.error, [("response", .resVal res)], "Reported TLS mismatch"⟩] ++
              (if res.StatusCode ≠ StatusOK then
                [⟨.error, [("status", .int StatusOK)], "StatusCode was not OK"⟩]
              else [])
          sent := some req, bodyRead := true, bodyClosed := true }

/-! ### Helper lemmas -/

/-- An RFC 3339 rendering is never the empty string (it always ends in the
literal `Z` and carries the date/time separators). -/
theorem formatRFC3339_ne_empty (t : Nat) : formatRFC3339 t ≠ "" := by
  intro h
  have h2 := congrArg String.length h
  simp [formatRFC3339, String.length_append] at h2
  exact absurd h2.2 (by decide)

/-- Reading back a JSON array of strings recovers the original list. -/
theorem strListOfJson_map_str (l : List String) :
    strListOfJson (l.map Json.str) = some l := by
  induction l with
  | nil => rfl
  | cons a t ih => simp [strListOfJson, ih]

/-! ### Claim theorems -/

/-- Claim C1: falsified (code bug).  The spec says the report's `date-time`
field (`observedAt`) is set to the construction time, but the composite
literal in `NewTLSReport` never assigns `DateTime`, so it keeps the Go
zero value `""` for every input — and `""` is not the RFC 3339 rendering
of any time. -/
theorem newTLSReport_dateTime_left_unset
    (now : Nat) (host port server : String) (certChain knownPins : List String)
    (appVersion : String) :
    (NewTLSReport now host port server certChain knownPins appVersion).DateTime = "" ∧
      ∀ t : Nat, formatRFC3339 t ≠ "" :=
  ⟨rfl, formatRFC3339_ne_empty⟩

/-- Claim C2: falsified (code bug).  `NewTLSReport` never fails and sets
`EffectiveExpirationDate` to the construction time plus 365×24×3600
seconds, but because `DateTime` is left at the zero value `""` there is
no time `t` with `DateTime` rendering `t` and `EffectiveExpirationDate`
rendering `t + 365×24×3600`: the claimed relation between the two fields
fails for every input. -/
theorem newTLSReport_pinExpiry_not_anchored_to_dateTime
    (now : Nat) (host port server : String) (certChain knownPins : List String)
    (appVersion : String) :
    (NewTLSReport now host port server certChain knownPins appVersion).EffectiveExpirationDate =
        formatRFC3339 (now + 365 * 24 * 60 * 60) ∧
      ¬ ∃ t : Nat,
          (NewTLSReport now host port server certChain knownPins appVersion).DateTime =
              formatRFC3339 t ∧
            (NewTLSReport now host port server certChain knownPins appVersion).EffectiveExpirationDate =
              formatRFC3339 (t + 365 * 24 * 60 * 60) :=
  ⟨rfl, fun ⟨t, ht, _⟩ => formatRFC3339_ne_empty t ht.symm⟩

/-- Claim C3: `postCertIssueReport` returns unit and absorbs every failure:
on a marshal failure it emits only the marshal-error log record and never
reaches the transport; on a request-construction failure it emits only
the construction-error record and never reaches the transport; on a
transport failure it emits the pre-send warning plus the transport-error
record and returns.  In every case the function returns a plain trace, so
the caller's control flow is unaffected. -/
theorem postCertIssueReport_absorbs_failures
    (env : HttpEnv) (report : TLSReport) (userAgent : String) :
    (∀ e, env.marshal = .err e →
        postCertIssueReport env report userAgent =
          { logs := [⟨.error, [("error", .errVal e)], "Failed to marshal TLS report"⟩]
            sent := none, bodyRead := false, bodyClosed := false }) ∧
      (∀ b e, env.marshal = .ok b → env.newRequest = .err e →
        postCertIssueReport env report userAgent =
          { logs := [⟨.error, [("error", .errVal e)], "Failed to create http request"⟩]
            sent := none, bodyRead := false, bodyClosed := false }) ∧
      (∀ b e, env.marshal = .ok b → env.newRequest = .ok → env.doRequest = .err e →
        (postCertIssueReport env report userAgent).logs.length = 2 ∧
          (postCertIssueReport env report userAgent).logs.get? 1 =
            some ⟨.error, [("error", .errVal e)], "Failed to report TLS mismatch"⟩ ∧
          (postCertIssueReport env report userAgent).bodyRead = false ∧
          (postCertIssueReport env report userAgent).bodyClosed = false) := by
  obtain ⟨m, n, d⟩ := env
  refine ⟨?_, ?_, ?_⟩
  · rintro e rfl
    rfl
  · rintro b e rfl rfl
    rfl
  · rintro b e rfl rfl rfl
    exact ⟨rfl, rfl, rfl, rfl⟩

/-- Witness for C3: the three failure modes at concrete inputs. -/
theorem postCertIssueReport_absorbs_failures_witness :
    (postCertIssueReport ⟨.err "marshal failed", .ok, .ok ⟨200⟩⟩
        (NewTLSReport 0 "mail.example.com" "443" "example.com" [] [] "1.0.0") "UA" =
      { logs := [⟨.error, [("error", .errVal "marshal failed")], "Failed to marshal TLS report"⟩]
        sent := none, bodyRead := false, bodyClosed := false }) ∧
      (postCertIssueReport ⟨.ok "p", .err "bad request", .ok ⟨200⟩⟩
        (NewTLSReport 0 "mail.example.com" "443" "example.com" [] [] "1.0.0") "UA" =
      { logs := [⟨.error, [("error", .errVal "bad request")], "Failed to create http request"⟩]
        sent := none, bodyRead := false, bodyClosed := false }) ∧
      (postCertIssueReport ⟨.ok "p", .ok, .err "connection refused"⟩
          (NewTLSReport 0 "mail.example.com" "443" "example.com" [] [] "1.0.0") "UA").logs.get? 1 =
        some ⟨.error, [("error", .errVal "connection refused")], "Failed to report TLS mismatch"⟩ :=
  ⟨(postCertIssueReport_absorbs_failures ⟨.err "marshal failed", .ok, .ok ⟨200⟩⟩
      (NewTLSReport 0 "mail.example.com" "443" "example.com" [] [] "1.0.0") "UA").1
      "marshal failed" rfl,
    (postCertIssueReport_absorbs_failures ⟨.ok "p", .err "bad request", .ok ⟨200⟩⟩
      (NewTLSReport 0 "mail.example.com" "443" "example.com" [] [] "1.0.0") "UA").2.1
      "p" "bad request" rfl rfl,
    ((postCertIssueReport_absorbs_failures ⟨.ok "p", .ok, .err "connection refused"⟩
      (NewTLSReport 0 "mail.example.com" "443" "example.com" [] [] "1.0.0") "UA").2.2
      "p" "connection refused" rfl rfl rfl).2.1⟩

/-- Claim C4: falsified and amended.  Counterexample to the claim as
stated: the 20-digit numeral `"99999999999999999999"` does not convert
(`strconv.Atoi` reports an error for it), yet the resulting port is the
clamped value 9223372036854775807, not 0. -/
theorem newTLSReport_port_overflow_counterexample :
    (Atoi "99999999999999999999").2 = false ∧
      ¬ (NewTLSReport 0 "mail.example.com" "99999999999999999999" "example.com"
          [] [] "1.0.0").Port = 0 := by decide

/-- Claim C4 (amended): for every port string that is not a syntactically
valid optionally-signed decimal numeral (e.g. `"abc"`), `NewTLSReport`
still succeeds and the report's port is 0; the builder is a total
function, so no error is ever returned. -/
theorem newTLSReport_port_zero_on_malformed
    (now : Nat) (host port server : String) (certChain knownPins : List String)
    (appVersion : String) (h : atoiNum port = none) :
    (NewTLSReport now host port server certChain knownPins appVersion).Port = 0 := by
  simp [NewTLSReport, Atoi, h]

/-- Witness for the amended C4 at the spec's example `"abc"`. -/
theorem newTLSReport_port_zero_on_malformed_witness :
    atoiNum "abc" = none ∧
      (NewTLSReport 0 "mail.example.com" "abc" "example.com" [] [] "1.0.0").Port = 0 :=
  ⟨rfl, newTLSReport_port_zero_on_malformed 0 "mail.example.com" "abc" "example.com"
    [] [] "1.0.0" rfl⟩

/-- Claim C5: the spec's scenario.  Each argument of
`buildReport("mail.example.com", "443", "example.com", ["PEM1"],
["pin-sha256=\"AAA=\""], "1.0.0")` is copied unchanged into the
corresponding field, the port parses to 443, `includeSubdomains` is
false and `validatedChain` is empty — at every construction time. -/
theorem newTLSReport_scenario_fields (now : Nat) :
    (NewTLSReport now "mail.example.com" "443" "example.com" ["PEM1"]
        ["pin-sha256=\"AAA=\""] "1.0.0").Hostname = "mail.example.com" ∧
      (NewTLSReport now "mail.example.com" "443" "example.com" ["PEM1"]
        ["pin-sha256=\"AAA=\""] "1.0.0").Port = 443 ∧
      (NewTLSReport now "mail.example.com" "443" "example.com" ["PEM1"]
        ["pin-sha256=\"AAA=\""] "1.0.0").NotedHostname = "example.com" ∧
      (NewTLSReport now "mail.example.com" "443" "example.com" ["PEM1"]
        ["pin-sha256=\"AAA=\""] "1.0.0").ServedCertificateChain = ["PEM1"] ∧
      (NewTLSReport now "mail.example.com" "443" "example.com" ["PEM1"]
        ["pin-sha256=\"AAA=\""] "1.0.0").KnownPins = ["pin-sha256=\"AAA=\""] ∧
      (NewTLSReport now "mail.example.com" "443" "example.com" ["PEM1"]
        ["pin-sha256=\"AAA=\""] "1.0.0").AppVersion = "1.0.0" ∧
      (NewTLSReport now "mail.example.com" "443" "example.com" ["PEM1"]
        ["pin-sha256=\"AAA=\""] "1.0.0").IncludeSubdomains = false ∧
      (NewTLSReport now "mail.example.com" "443" "example.com" ["PEM1"]
        ["pin-sha256=\"AAA=\""] "1.0.0").ValidatedCertificateChain = [] :=
  ⟨rfl, rfl, rfl, rfl, rfl, rfl, rfl, rfl⟩

/-- Claim C6: the marshalled object uses exactly the ten fixed field names
in struct order, and unmarshalling the marshalled object recovers every
field of the report (in particular the nine other than `date-time`)
byte-for-byte. -/
theorem tlsReport_json_roundtrip (r : TLSReport) :
    jsonKeys (encodeTLSReport r) =
        ["date-time", "hostname", "port", "effective-expiration-date",
          "include-subdomains", "noted-hostname", "served-certificate-chain",
          "validated-certificate-chain", "known-pins", "app-version"] ∧
      decodeTLSReport (encodeTLSReport r) = some r := by
  refine ⟨rfl, ?_⟩
  simp [decodeTLSReport, encodeTLSReport, fieldStr, fieldInt, fieldBool, fieldStrList,
    List.lookup, strListOfJson_map_str]

/-- Claim C7: whenever the transport call yields a response — whatever its
status code — `postCertIssueReport` drains (`ioutil.ReadAll`) and closes
the response body before returning, logs a record of the outcome
("Reported TLS mismatch" with the response attached), and logs an
additional diagnostic when the status is not 200. -/
theorem postCertIssueReport_drains_closes_and_logs
    (env : HttpEnv) (report : TLSReport) (userAgent b : String) (res : HttpResponse)
    (hm : env.marshal = .ok b) (hn : env.newRequest = .ok) (hd : env.doRequest = .ok res) :
    (postCertIssueReport env report userAgent).bodyRead = true ∧
      (postCertIssueReport env report userAgent).bodyClosed = true ∧
      (postCertIssueReport env report userAgent).logs.get? 1 =
        some ⟨.error, [("response", .resVal res)], "Reported TLS mismatch"⟩ ∧
      (res.StatusCode ≠ StatusOK →
        (postCertIssueReport env report userAgent).logs.get? 2 =
          some ⟨.error, [("status", .int StatusOK)], "StatusCode was not OK"⟩) := by
  obtain ⟨m, n, d⟩ := env
  subst hm; subst hn; subst hd
  refine ⟨rfl, rfl, rfl, fun hst => ?_⟩
  simp [postCertIssueReport, hst]

/-- Witness for C7 at a concrete non-200 response. -/
theorem postCertIssueReport_drains_closes_and_logs_witness :
    (postCertIssueReport ⟨.ok "p", .ok, .ok ⟨500⟩⟩
        (NewTLSReport 0 "mail.example.com" "443" "example.com" [] [] "1.0.0") "UA").bodyRead
        = true ∧
      (postCertIssueReport ⟨.ok "p", .ok, .ok ⟨500⟩⟩
        (NewTLSReport 0 "mail.example.com" "443" "example.com" [] [] "1.0.0") "UA").bodyClosed
        = true ∧
      (postCertIssueReport ⟨.ok "p", .ok, .ok ⟨500⟩⟩
          (NewTLSReport 0 "mail.example.com" "443" "example.com" [] [] "1.0.0") "UA").logs.get? 2 =
        some ⟨.error, [("status", .int StatusOK)], "StatusCode was not OK"⟩ :=
  ⟨(postCertIssueReport_drains_closes_and_logs ⟨.ok "p", .ok, .ok ⟨500⟩⟩
      (NewTLSReport 0 "mail.example.com" "443" "example.com" [] [] "1.0.0") "UA" "p" ⟨500⟩
      rfl rfl rfl).1,
    (postCertIssueReport_drains_closes_and_logs ⟨.ok "p", .ok, .ok ⟨500⟩⟩
      (NewTLSReport 0 "mail.example.com" "443" "example.com" [] [] "1.0.0") "UA" "p" ⟨500⟩
      rfl rfl rfl).2.1,
    (postCertIssueReport_drains_closes_and_logs ⟨.ok "p", .ok, .ok ⟨500⟩⟩
      (NewTLSReport 0 "mail.example.com" "443" "example.com" [] [] "1.0.0") "UA" "p" ⟨500⟩
      rfl rfl rfl).2.2.2 (by decide)⟩

/-- Claim C8: whenever the request is constructed, the request handed to
the transport is a POST to the fixed HTTPS report URI carrying exactly
the four required headers: `Content-Type: application/json`, the
caller-supplied `User-Agent`, the fixed integer API version in
`x-pm-apiversion`, and the report's `AppVersion` in `x-pm-appversion`. -/
theorem postCertIssueReport_request_shape
    (env : HttpEnv) (report : TLSReport) (userAgent b : String)
    (hm : env.marshal = .ok b) (hn : env.newRequest = .ok) :
    (postCertIssueReport env report userAgent).sent =
        some { Method := "POST", URL := TLSReportURI,
               Headers := [("Content-Type", "application/json"),
                           ("User-Agent", userAgent),
                           ("x-pm-apiversion", Itoa Version),
                           ("x-pm-appversion", report.AppVersion)],
               Body := b } ∧
      TLSReportURI = "https://reports.protonmail.ch/reports/tls" := by
  obtain ⟨m, n, d⟩ := env
  subst hm; subst hn
  cases d <;> exact ⟨rfl, rfl⟩

/-- Witness for C8 at concrete inputs. -/
theorem postCertIssueReport_request_shape_witness :
    (postCertIssueReport ⟨.ok "p", .ok, .ok ⟨200⟩⟩
        (NewTLSReport 0 "mail.example.com" "443" "example.com" [] [] "1.0.0") "UA").sent =
        some { Method := "POST", URL := TLSReportURI,
               Headers := [("Content-Type", "application/json"),
                           ("User-Agent", "UA"),
                           ("x-pm-apiversion", Itoa Version),
                           ("x-pm-appversion", "1.0.0")],
               Body := "p" } ∧
      TLSReportURI = "https://reports.protonmail.ch/reports/tls" :=
  postCertIssueReport_request_shape ⟨.ok "p", .ok, .ok ⟨200⟩⟩
    (NewTLSReport 0 "mail.example.com" "443" "example.com" [] [] "1.0.0") "UA" "p" rfl rfl

/-- Claim C9: for every input, the report has `IncludeSubdomains = false`
and an empty `ValidatedCertificateChain`. -/
theorem newTLSReport_fixed_fields
    (now : Nat) (host port server : String) (certChain knownPins : List String)
    (appVersion : String) :
    (NewTLSReport now host port server certChain knownPins appVersion).IncludeSubdomains
        = false ∧
      (NewTLSReport now host port server certChain knownPins appVersion).ValidatedCertificateChain
        = [] :=
  ⟨rfl, rfl⟩

/-- Claim C10: on a non-200 response the "StatusCode was not OK"
diagnostic carries the constant `http.StatusOK` (200) in its `status`
field — the response's actual status code never appears in that
record's fields. -/
theorem statusNotOK_log_records_constant_ok
    (env : HttpEnv) (report : TLSReport) (userAgent b : String) (res : HttpResponse)
    (hm : env.marshal = .ok b) (hn : env.newRequest = .ok) (hd : env.doRequest = .ok res)
    (hs : res.StatusCode ≠ StatusOK) :
    (postCertIssueReport env report userAgent).logs.get? 2 =
        some ⟨.error, [("status", FieldValue.int StatusOK)], "StatusCode was not OK"⟩ ∧
      ("status", FieldValue.int res.StatusCode) ∉
        [(("status" : String), FieldValue.int StatusOK)] := by
  obtain ⟨m, n, d⟩ := env
  subst hm; subst hn; subst hd
  refine ⟨by simp [postCertIssueReport, hs], ?_⟩
  simpa using hs

/-- Witness for C10 at a concrete 404 response. -/
theorem statusNotOK_log_records_constant_ok_witness :
    (postCertIssueReport ⟨.ok "p", .ok, .ok ⟨404⟩⟩
          (NewTLSReport 0 "mail.example.com" "443" "example.com" [] [] "1.0.0") "UA").logs.get? 2 =
        some ⟨.error, [("status", FieldValue.int StatusOK)], "StatusCode was not OK"⟩ ∧
      ("status", FieldValue.int 404) ∉ [(("status" : String), FieldValue.int StatusOK)] :=
  statusNotOK_log_records_constant_ok ⟨.ok "p", .ok, .ok ⟨404⟩⟩
    (NewTLSReport 0 "mail.example.com" "443" "example.com" [] [] "1.0.0") "UA" "p" ⟨404⟩
    rfl rfl rfl (by decide)

end Pmapi
